import Mathlib

/-!
Verification of the Stanford segmenter adapter
(`nltk/tokenize/stanford_segmenter.py`).

The module is a process-invocation adapter: it resolves external artifact
paths, assembles a command line, stages in-memory sentences into a temporary
file, runs an external process, and decodes its captured stdout.  The
embedding below translates the adapter's state and operations from the
Python source.  Helpers imported from `nltk.internals` (`find_jar`,
`find_file`, `find_dir`, `config_java`, `java`) and the OS services
(`tempfile.mkstemp`, filesystem, process execution, text codecs) are not part
of the source file; they are abstracted as environment oracles
(`LocateEnv`, `ExecEnv`), while everything the source file itself does is
modelled exactly.
-/

namespace StanfordSeg

/-- Python `str.join` (`sep.join(xs)`), translated from CPython semantics:
empty list gives `""`, otherwise the items with `sep` in between and no
trailing separator. -/
def pyJoin (sep : String) : List String → String
  | [] => ""
  | [x] => x
  | x :: y :: rest => x ++ sep ++ pyJoin sep (y :: rest)

/-- Hexadecimal rendering of a natural number (lower case), as CPython prints
`0x%x` in format-error messages. -/
def hexStr (n : Nat) : String :=
  String.mk (Nat.toDigits 16 n)

/-- Python `%`-formatting with a single (string) right-hand argument,
restricted to the conversions the source can reach: `%s` substitutes the
argument, `%%` is a literal percent, and any other conversion character `c`
raises `ValueError("unsupported format character 'c' (0x..) at index i)")`
where `i` is the index of `c`.  The position argument tracks the index of the
head character in the whole format string. -/
def pyFormatAux (arg : String) : List Char → Nat → Except String String
  | [], _ => .ok ""
  | ['%'], _ => .error "incomplete format"
  | '%' :: c :: rest, i =>
    if c = 's' then
      (pyFormatAux arg rest (i + 2)).map (fun tail => arg ++ tail)
    else if c = '%' then
      (pyFormatAux arg rest (i + 2)).map (fun tail => "%" ++ tail)
    else
      .error ("unsupported format character \x27" ++ String.mk [c] ++
        "\x27 (0x" ++ hexStr c.toNat ++ ") at index " ++ toString (i + 1))
  | c :: rest, i =>
    (pyFormatAux arg rest (i + 1)).map (fun tail => String.mk [c] ++ tail)

/-- Python `fmt % arg` for a single string argument. -/
def pyFormat (fmt : String) (arg : String) : Except String String :=
  pyFormatAux arg fmt.data 0

/-- Python `os.path.join a b` for the cases the source exercises (two
components). -/
def pathJoin (a b : String) : String :=
  if b.startsWith "/" then b
  else if a = "" ∨ a.endsWith "/" then a ++ b
  else a ++ "/" ++ b

/-- JSON-encodable values that can appear in the `options` mapping
(`json.dumps` is applied to each value). -/
inductive JVal where
  | jnum : Int → JVal
  | jstr : String → JVal
  | jbool : Bool → JVal
deriving Repr, DecidableEq

/-- `json.dumps` escaping of one character inside a string literal
(CPython defaults: `ensure_ascii=True`). -/
def jsonEscapeChar (c : Char) : String :=
  if c = '"' then "\\\""
  else if c = '\\' then "\\\\"
  else if c = '\n' then "\\n"
  else if c = '\t' then "\\t"
  else if c = '\r' then "\\r"
  else if c.toNat < 0x20 ∨ c.toNat > 0x7e then
    if c.toNat ≤ 0xffff then
      "\\u" ++ String.mk (List.replicate (4 - (Nat.toDigits 16 c.toNat).length) '0') ++
        hexStr c.toNat
    else
      let v := c.toNat - 0x10000
      "\\u" ++ hexStr (0xd800 + v / 0x400) ++ "\\u" ++ hexStr (0xdc00 + v % 0x400)
  else String.mk [c]

/-- Python `json.dumps` on the closed set of value kinds used by the options
mapping. -/
def jsonDumps : JVal → String
  | .jnum n => toString n
  | .jstr s => "\"" ++ String.join (s.data.map jsonEscapeChar) ++ "\""
  | .jbool b => if b then "true" else "false"

/-- Serialization of the `options` mapping, from `__init__` line 87:
`','.join('{0}={1}'.format(key, json.dumps(val)) for key, val in
options.items())` (dict iteration preserves insertion order). -/
def options_cmd_str (options : List (String × JVal)) : String :=
  pyJoin "," (options.map (fun kv => kv.1 ++ "=" ++ jsonDumps kv.2))

/-- The adapter state: the instance attributes a `StanfordSegmenter` object
carries (`__init__`, lines 74-87, plus `_input_file_path` assigned in
`segment_sents`).  Attributes that Python may hold as `None` are `Option`s. -/
structure SegmenterState where
  stanford_jar : String
  java_class : Option String
  model : Option String
  dict : Option String
  sihan_corpora_dict : Option String
  sihan_post_processing : String
  keep_whitespaces : String
  encoding : String
  java_options : String
  options_cmd : String
  input_file_path : Option String
deriving Repr, DecidableEq

/-- Python exceptions the adapter can raise or propagate. -/
inductive PyErr where
  | lookupError : String → PyErr
  | valueError : String → PyErr
  | typeError : String → PyErr
  | executionError : String → PyErr
  | unicodeDecodeError : String → PyErr
deriving Repr, DecidableEq

/-- Oracle for the artifact-lookup helpers imported from `nltk.internals`
(not part of the source file) and for `os.environ`.  Each lookup returns
`some path` when the helper would return, `none` when it would raise
`LookupError`. -/
structure LocateEnv where
  find_jar : String → Option String → List String → Option String
  find_file : String → List String → List String → Option String
  find_dir : String → List String → Option String
  environ : String → Option String

/-- Constructor `StanfordSegmenter.__init__` (lines 51-87): resolves the two
jars, joins them with the path separator into the classpath, and stores the
remaining keyword arguments verbatim. -/
def init (env : LocateEnv)
    (path_to_jar path_to_slf4j java_class path_to_model path_to_dict
      path_to_sihan_corpora_dict : Option String)
    (sihan_post_processing keep_whitespaces encoding : String)
    (options : List (String × JVal)) (java_options : String) :
    Except PyErr SegmenterState :=
  match env.find_jar "stanford-segmenter.jar" path_to_jar ["STANFORD_SEGMENTER"] with
  | none => .error (.lookupError "find_jar failed: stanford-segmenter.jar")
  | some stanford_segmenter =>
    match env.find_jar "slf4j-api.jar" path_to_slf4j ["SLF4J", "STANFORD_SEGMENTER"] with
    | none => .error (.lookupError "find_jar failed: slf4j-api.jar")
    | some slf4j =>
      .ok {
        stanford_jar := pyJoin ":" [stanford_segmenter, slf4j]
        java_class := java_class
        model := path_to_model
        dict := path_to_dict
        sihan_corpora_dict := path_to_sihan_corpora_dict
        sihan_post_processing := sihan_post_processing
        keep_whitespaces := keep_whitespaces
        encoding := encoding
        java_options := java_options
        options_cmd := options_cmd_str options
        input_file_path := none
      }

/-- The `search_path` computed at the top of `default_config`
(lines 95-97). -/
def search_path_of (env : LocateEnv) : List String :=
  match env.environ "STANFORD_SEGMENTER" with
  | some p => if p = "" then [] else [pathJoin p "data"]
  | none => []

/-- The shared model lookup at the end of `default_config` (lines 134-140). -/
def resolve_model (env : LocateEnv) (search_path : List String) (model : String)
    (s : SegmenterState) : SegmenterState × Option PyErr :=
  match env.find_file model search_path ["STANFORD_MODELS", "STANFORD_SEGMENTER"] with
  | none => (s, some (.lookupError ("Could not find \x27" ++ model ++
      "\x27 (tried using env. variables STANFORD_MODELS and <STANFORD_SEGMENTER>/data/)")))
  | some m => ({ s with model := some m }, none)

/-- `StanfordSegmenter.default_config` (lines 89-140).  Python mutates the
instance in place and may raise partway, so the embedding returns the
post-call state together with the raised exception (if any).  Note the
`else` branch executes `"Unsupported language '%'" % lang` before raising,
exactly as the source writes it. -/
def default_config (env : LocateEnv) (lang : String) (s : SegmenterState) :
    SegmenterState × Option PyErr :=
  let search_path := search_path_of env
  let s := { s with dict := none, sihan_corpora_dict := none,
                    sihan_post_processing := "false" }
  if lang = "ar" then
    let s := { s with
      java_class := some "edu.stanford.nlp.international.arabic.process.ArabicSegmenter" }
    resolve_model env search_path "arabic-segmenter-atb+bn+arztrain.ser.gz" s
  else if lang = "zh" then
    let s := { s with
      java_class := some "edu.stanford.nlp.ie.crf.CRFClassifier"
      sihan_post_processing := "true" }
    match env.find_file "dict-chris6.ser.gz" search_path ["STANFORD_MODELS"] with
    | none => (s, some (.lookupError ("Could not find \x27dict-chris6.ser.gz\x27 " ++
        "(tried using env. variables STANFORD_MODELS and <STANFORD_SEGMENTER>/data/)")))
    | some d =>
      let s := { s with dict := some d }
      match env.find_dir "./data/" ["STANFORD_SEGMENTER"] with
      | none => (s, some (.lookupError ("Could not find \x27./data/\x27 " ++
          "(tried using the STANFORD_SEGMENTER environment variable)")))
      | some dir =>
        let s := { s with sihan_corpora_dict := some (pathJoin dir "./data/") }
        resolve_model env search_path "pku.gz" s
  else
    match pyFormat "Unsupported language \x27%\x27" lang with
    | .error e => (s, some (.valueError e))
    | .ok m => (s, some (.lookupError m))

/-- Observable world state around an invocation: the set of existing
temporary files, what was written to each (as encoded bytes), and the global
java runtime options managed by `config_java` / `_java_options`. -/
structure World where
  files : List String
  contents : List (String × List Nat)
  javaOptions : String
deriving Repr, DecidableEq

/-- Oracle for the OS services used by an invocation: `tempfile.mkstemp`
(fresh path), the `java` subprocess helper (given the command, the
classpath, and the java options in force at launch; `.error` is the
`OSError` raised on a failed start or non-zero exit, carrying stderr), the
text codec in both directions.  Command arguments are `Option String`
because the Python list can hold `None` attributes. -/
structure ExecEnv where
  mkstemp : World → String
  javaRun : List (Option String) → String → String → Except String String
  decode : String → String → Except String String
  encode : String → String → List Nat

/-- Sentence serialization in `segment_sents` (line 175):
`'\n'.join((' '.join(x) for x in sentences))`. -/
def stage_text (sentences : List (List String)) : String :=
  pyJoin "\n" (sentences.map (fun x => pyJoin " " x))

/-- The command list built identically in `segment_file` (lines 148-157) and
`segment_sents` (lines 181-190): the base arguments, then the three
sihan-specific flags exactly when `self._sihan_corpora_dict is not None`. -/
def build_cmd (s : SegmenterState) (textFile : Option String) : List (Option String) :=
  let cmd : List (Option String) :=
    [s.java_class,
     some "-loadClassifier", s.model,
     some "-keepAllWhitespaces", some s.keep_whitespaces,
     some "-textFile", textFile]
  match s.sihan_corpora_dict with
  | some corp => cmd ++
      [some "-serDictionary", s.dict,
       some "-sighanCorporaDict", some corp,
       some "-sighanPostProcessing", some s.sihan_post_processing]
  | none => cmd

/-- The command extension performed inside `_execute` (lines 201-204):
always `-inputEncoding`, then `-options` only when the serialized options
string is non-empty (Python truthiness of a string). -/
def execute_cmd (s : SegmenterState) (cmd : List (Option String)) : List (Option String) :=
  let cmd := cmd ++ [some "-inputEncoding", some s.encoding]
  if s.options_cmd = "" then cmd else cmd ++ [some "-options", some s.options_cmd]

/-- `StanfordSegmenter._execute` (lines 199-217).  It reads the current
global java options as `default_options`, overrides them with
`self.java_options` via `config_java`, launches the process, decodes stdout,
and only then restores the default options.  There is no `try/finally`: when
`java(...)` raises or `stdout.decode` raises, the restore on line 215 is
never executed, which the returned world makes visible. -/
def execute (env : ExecEnv) (s : SegmenterState) (cmd0 : List (Option String))
    (w : World) : World × Except PyErr String :=
  let cmd := execute_cmd s cmd0
  let default_options := w.javaOptions
  let w := { w with javaOptions := s.java_options }
  match env.javaRun cmd s.stanford_jar w.javaOptions with
  | .error stderr => (w, .error (.executionError stderr))
  | .ok raw =>
    match env.decode s.encoding raw with
    | .error e => (w, .error (.unicodeDecodeError e))
    | .ok out => ({ w with javaOptions := default_options }, .ok out)

/-- `StanfordSegmenter.segment_sents` (lines 166-197): create a temporary
file, write the encoded joined sentences to it, build the command, run
`_execute`, and delete the temporary file — the `os.unlink` on line 195 runs
only after `_execute` returns normally, so an exception from `_execute`
leaves the file in place.  (With a falsy encoding the source would write a
`str` to a binary file, a `TypeError`, before any execution.)  Returns the
mutated instance state, the world, and the result. -/
def segment_sents (env : ExecEnv) (s : SegmenterState)
    (sentences : List (List String)) (w : World) :
    SegmenterState × World × Except PyErr String :=
  let path := env.mkstemp w
  let w := { w with files := path :: w.files }
  let s := { s with input_file_path := some path }
  if s.encoding = "" then
    (s, w, .error (.typeError "a bytes-like object is required, not str"))
  else
    let w := { w with
      contents := (path, env.encode s.encoding (stage_text sentences)) :: w.contents }
    match execute env s (build_cmd s s.input_file_path) w with
    | (w, .error e) => (s, w, .error e)
    | (w, .ok out) => (s, { w with files := w.files.erase path }, .ok out)

/-- `StanfordSegmenter.segment` (lines 163-164):
`return self.segment_sents([tokens])`. -/
def segment (env : ExecEnv) (s : SegmenterState) (tokens : List String)
    (w : World) : SegmenterState × World × Except PyErr String :=
  segment_sents env s [tokens] w

/-- `StanfordSegmenter.segment_file` (lines 145-161): same command shape
with the caller's file path, no staging and no deletion. -/
def segment_file (env : ExecEnv) (s : SegmenterState) (input_file_path : String)
    (w : World) : World × Except PyErr String :=
  execute env s (build_cmd s (some input_file_path)) w

/-! ### Helper lemmas -/

/-- Accumulator lemma for `String.intercalate.go`. -/
theorem intercalate_go_append (sep : String) :
    ∀ (l : List String) (a b : String),
      String.intercalate.go (a ++ b) sep l = a ++ String.intercalate.go b sep l := by
  intro l
  induction l with
  | nil => intro a b; rfl
  | cons x xs ih =>
    intro a b
    have key : String.intercalate.go (a ++ b) sep (x :: xs)
        = String.intercalate.go (a ++ b ++ sep ++ x) sep xs := rfl
    have harg : a ++ b ++ sep ++ x = a ++ (b ++ sep ++ x) := by
      simp [String.append_assoc]
    rw [key, harg, ih]
    rfl

/-- Python `str.join` agrees with `String.intercalate`. -/
theorem pyJoin_eq_intercalate (sep : String) (xs : List String) :
    pyJoin sep xs = String.intercalate sep xs := by
  induction xs with
  | nil => rfl
  | cons x ys ih =>
    cases ys with
    | nil => rfl
    | cons y rest =>
      show x ++ sep ++ pyJoin sep (y :: rest) = String.intercalate.go x sep (y :: rest)
      rw [ih]
      show x ++ sep ++ String.intercalate.go y sep rest
          = String.intercalate.go (x ++ sep ++ y) sep rest
      rw [intercalate_go_append sep rest (x ++ sep) y]

/-- The world returned by `execute` carries the same staged file contents as
the world it was given: `_execute` never touches the staging area. -/
theorem execute_contents_eq (env : ExecEnv) (s : SegmenterState)
    (cmd : List (Option String)) (w : World) :
    (execute env s cmd w).1.contents = w.contents := by
  simp only [execute]
  split
  · rfl
  · split <;> rfl

/-- The world returned by `execute` carries the same file set as the world it
was given: `_execute` neither creates nor deletes files. -/
theorem execute_files_eq (env : ExecEnv) (s : SegmenterState)
    (cmd : List (Option String)) (w : World) :
    (execute env s cmd w).1.files = w.files := by
  simp only [execute]
  split
  · rfl
  · split <;> rfl

/-- After `segment_sents` with a non-falsy encoding, the staging record shows
exactly one new file holding the encoded joined sentences. -/
theorem segment_sents_contents (env : ExecEnv) (s : SegmenterState)
    (sentences : List (List String)) (w : World) (h : ¬ s.encoding = "") :
    (segment_sents env s sentences w).2.1.contents =
      (env.mkstemp w, env.encode s.encoding (stage_text sentences)) :: w.contents := by
  unfold segment_sents
  simp only [h, if_false, ite_false]
  split
  next w1 e heq =>
    have hc := congrArg (fun p => p.1.contents) heq
    simp only at hc
    rw [execute_contents_eq] at hc
    exact hc.symm
  next w1 out heq =>
    have hc := congrArg (fun p => p.1.contents) heq
    simp only at hc
    rw [execute_contents_eq] at hc
    exact hc.symm

/-- A character of the head string occurs in a `pyJoin` of it with anything. -/
theorem pyJoin_head_mem (sep x : String) (l : List String) (c : Char)
    (hc : c ∈ x.data) : c ∈ (pyJoin sep (x :: l)).data := by
  cases l with
  | nil => simpa [pyJoin] using hc
  | cons y rest =>
    show c ∈ (x ++ sep ++ pyJoin sep (y :: rest)).data
    simp only [String.data_append, List.mem_append]
    exact Or.inl (Or.inl hc)

/-- The serialized options string of a non-empty mapping always contains an
equals sign (so it is never empty and never the literal `-options`). -/
theorem options_cmd_str_has_eq_char (k : String) (v : JVal)
    (rest : List (String × JVal)) :
    '=' ∈ (options_cmd_str ((k, v) :: rest)).data := by
  have hx : '=' ∈ (k ++ "=" ++ jsonDumps v).data := by
    simp [String.data_append]
  simpa [options_cmd_str] using
    pyJoin_head_mem "," (k ++ "=" ++ jsonDumps v)
      (rest.map (fun kv => kv.1 ++ "=" ++ jsonDumps kv.2)) '=' hx

/-- A `default_config('zh')` call that returns without raising has enabled
post-processing and resolved both the dictionary and the corpora directory
(the three lookups on lines 113-140 all succeeded). -/
theorem default_config_zh_ok (env : LocateEnv) (s : SegmenterState)
    (hok : (default_config env "zh" s).2 = none) :
    (default_config env "zh" s).1.sihan_post_processing = "true"
    ∧ (default_config env "zh" s).1.dict.isSome = true
    ∧ (default_config env "zh" s).1.sihan_corpora_dict.isSome = true := by
  rcases h1 : env.find_file "dict-chris6.ser.gz" (search_path_of env) ["STANFORD_MODELS"]
      with _ | d
  · exact absurd hok (by simp [default_config, h1])
  · rcases h2 : env.find_dir "./data/" ["STANFORD_SEGMENTER"] with _ | dir
    · exact absurd hok (by simp [default_config, h1, h2])
    · rcases h3 : env.find_file "pku.gz" (search_path_of env)
          ["STANFORD_MODELS", "STANFORD_SEGMENTER"] with _ | m
      · exact absurd hok (by simp [default_config, resolve_model, h1, h2, h3])
      · simp [default_config, resolve_model, h1, h2, h3]

/-! ### Concrete fixtures used by closed theorems and witnesses -/

/-- Locator oracle in which every artifact resolves. -/
def locEnvFound : LocateEnv where
  find_jar := fun name _ _ => some ("/opt/seg/" ++ name)
  find_file := fun name _ _ => some ("/opt/models/" ++ name)
  find_dir := fun _ _ => some "/opt/seg"
  environ := fun _ => none

/-- Locator oracle in which the Chinese dictionary file is missing. -/
def locEnvNoDict : LocateEnv where
  find_jar := fun name _ _ => some ("/opt/seg/" ++ name)
  find_file := fun name _ _ =>
    if name = "dict-chris6.ser.gz" then none else some ("/opt/models/" ++ name)
  find_dir := fun _ _ => some "/opt/seg"
  environ := fun _ => none

/-- Locator oracle in which the sihan corpora directory is missing. -/
def locEnvNoDir : LocateEnv where
  find_jar := fun name _ _ => some ("/opt/seg/" ++ name)
  find_file := fun name _ _ => some ("/opt/models/" ++ name)
  find_dir := fun _ _ => none
  environ := fun _ => none

/-- A plain adapter state, as produced by a successful construction. -/
def baseState : SegmenterState where
  stanford_jar := "/opt/seg/stanford-segmenter.jar:/opt/seg/slf4j-api.jar"
  java_class := some "edu.stanford.nlp.ie.crf.CRFClassifier"
  model := some "/opt/models/pku.gz"
  dict := none
  sihan_corpora_dict := none
  sihan_post_processing := "false"
  keep_whitespaces := "false"
  encoding := "UTF-8"
  java_options := "-mx2g"
  options_cmd := ""
  input_file_path := none

/-- An initially empty world whose java options are at their default. -/
def world0 : World where
  files := []
  contents := []
  javaOptions := ""

/-- Execution oracle whose child process fails (non-zero exit). -/
def execEnvFail : ExecEnv where
  mkstemp := fun _ => "/tmp/tmp8xk21abc"
  javaRun := fun _ _ _ => .error "java.lang.OutOfMemoryError"
  decode := fun _ raw => .ok raw
  encode := fun _ t => t.data.map Char.toNat

/-- Execution oracle whose child process succeeds. -/
def execEnvOk : ExecEnv where
  mkstemp := fun _ => "/tmp/tmp8xk21abc"
  javaRun := fun _ _ _ => .ok "a b c"
  decode := fun _ raw => .ok raw
  encode := fun _ t => t.data.map Char.toNat

/-! ### Claim theorems -/

/-- C10: `segment(tokens)` returns exactly `segment_sents([tokens])` in every
state and world — the single-sentence entry point is pure delegation
(source lines 163-164). -/
theorem C10_segment_delegates (env : ExecEnv) (s : SegmenterState)
    (tokens : List String) (w : World) :
    segment env s tokens w = segment_sents env s [tokens] w := rfl

/-- C7: input staging writes exactly the sentences joined token-wise by a
single space and sentence-wise by a single newline, with no trailing
newline, encoded with the configured encoding; in particular the staged text
for `[["a","b"],["c"]]` is exactly `"a b\nc"`.  (The hypothesis excludes a
falsy encoding, under which the source would fail before writing.) -/
theorem C7_stage_input (env : ExecEnv) (s : SegmenterState)
    (sentences : List (List String)) (w : World) (h : ¬ s.encoding = "") :
    (segment_sents env s sentences w).2.1.contents =
      (env.mkstemp w,
        env.encode s.encoding
          (String.intercalate "\n" (sentences.map (String.intercalate " ")))) ::
        w.contents
    ∧ stage_text [["a", "b"], ["c"]] = "a b\nc" := by
  constructor
  · rw [segment_sents_contents env s sentences w h]
    simp only [stage_text, pyJoin_eq_intercalate]
  · rfl

/-- C7 witness: the theorem applied to a concrete environment, state,
sentence list and world. -/
theorem C7_stage_input_witness :
    (segment_sents execEnvOk baseState [["a", "b"], ["c"]] world0).2.1.contents =
      (execEnvOk.mkstemp world0,
        execEnvOk.encode baseState.encoding
          (String.intercalate "\n" ([["a", "b"], ["c"]].map (String.intercalate " ")))) ::
        world0.contents
    ∧ stage_text [["a", "b"], ["c"]] = "a b\nc" :=
  C7_stage_input execEnvOk baseState [["a", "b"], ["c"]] world0 (by decide)

/-- C1 (code bug): the temporary input file is deleted only on the success
path.  With a child process that fails, `segment_sents` returns the
`ExecutionError` but the staged file is still present, while the identical
call with a succeeding child process leaves no file behind.  The `os.unlink`
on line 195 is only reached after `_execute` returns normally. -/
theorem C1_temp_file_leak_on_failure :
    (segment_sents execEnvFail baseState [["a"]] world0).2.1.files = ["/tmp/tmp8xk21abc"]
    ∧ (segment_sents execEnvFail baseState [["a"]] world0).2.2 =
        .error (.executionError "java.lang.OutOfMemoryError")
    ∧ (segment_sents execEnvOk baseState [["a"]] world0).2.1.files = []
    ∧ (segment_sents execEnvOk baseState [["a"]] world0).2.2 = .ok "a b c" :=
  ⟨rfl, rfl, rfl, rfl⟩

/-- C4 (code bug): `_execute` sets the global java options from the config
before launching, but the restore on line 215 runs only after a successful
launch and decode.  When the child process fails, the returned world still
carries the per-instance override, while the identical call with a
succeeding child process restores the pre-call default. -/
theorem C4_java_options_leak_on_failure :
    world0.javaOptions = ""
    ∧ baseState.java_options = "-mx2g"
    ∧ (execute execEnvFail baseState (build_cmd baseState (some "/tmp/in.txt"))
        world0).1.javaOptions = "-mx2g"
    ∧ (execute execEnvFail baseState (build_cmd baseState (some "/tmp/in.txt"))
        world0).2 = .error (.executionError "java.lang.OutOfMemoryError")
    ∧ (execute execEnvOk baseState (build_cmd baseState (some "/tmp/in.txt"))
        world0).1.javaOptions = "" :=
  ⟨rfl, rfl, rfl, rfl, rfl⟩

/-- C2 (code bug): `default_config` on an unsupported tag such as `"fr"`
does not raise a `LookupError` naming the tag.  Line 132 evaluates
`"Unsupported language '%'" % lang`, and the conversion `%'` is invalid, so
Python raises `ValueError("unsupported format character ...")` instead — an
error of the wrong class whose message never mentions the offending tag. -/
theorem C2_unsupported_language_raises_format_error :
    (default_config locEnvFound "fr" baseState).2 =
      some (.valueError
        "unsupported format character \x27\x27\x27 (0x27) at index 23") := rfl

/-- C3 counterexample: a state whose `postProcessingEnabled` is `'true'`
(e.g. after a prior Chinese configuration) loses that value on a successful
`default_config('ar')`: line 102 resets `_sihan_post_processing` to
`'false'` for every language, so it is not left unchanged. -/
theorem C3_post_processing_reset_counterexample :
    ({ baseState with sihan_post_processing := "true" } :
        SegmenterState).sihan_post_processing = "true"
    ∧ (default_config locEnvFound "ar"
        { baseState with sihan_post_processing := "true" }).2 = none
    ∧ (default_config locEnvFound "ar"
        { baseState with sihan_post_processing := "true" }).1.sihan_post_processing
        = "false" :=
  ⟨rfl, rfl, rfl⟩

/-- C3 amended: for every prior state, `default_config('ar')` clears
`dictPath` and `sihanCorporaDir` and resets `postProcessingEnabled` to its
default `'false'` regardless of the prior value (lines 100-102 run before the
language dispatch). -/
theorem C3_ar_clears_chinese_fields (env : LocateEnv) (s : SegmenterState) :
    (default_config env "ar" s).1.dict = none
    ∧ (default_config env "ar" s).1.sihan_corpora_dict = none
    ∧ (default_config env "ar" s).1.sihan_post_processing = "false" := by
  rcases h1 : env.find_file "arabic-segmenter-atb+bn+arztrain.ser.gz" (search_path_of env)
      ["STANFORD_MODELS", "STANFORD_SEGMENTER"] with _ | m <;>
    simp [default_config, resolve_model, h1]

/-- The both-set-or-both-absent coupling of the two Chinese-only path
fields. -/
def pair_invariant (s : SegmenterState) : Prop :=
  s.dict.isSome = s.sihan_corpora_dict.isSome

/-- C5 counterexample: the constructor stores `path_to_dict` and
`path_to_sihan_corpora_dict` independently (lines 79, 82), so a reachable
state — built with a dictionary path but no corpora directory — has
`dictPath` set and `sihanCorporaDir` absent. -/
theorem C5_pair_invariant_counterexample :
    (init locEnvFound none none none none
        (some "/opt/models/dict-chris6.ser.gz") none
        "false" "false" "UTF-8" [] "-mx2g").map
      (fun st => (st.dict, st.sihan_corpora_dict))
    = .ok (some "/opt/models/dict-chris6.ser.gz", none) := rfl

/-- C5 amended: the coupling holds after construction exactly when the two
constructor arguments respect it, and after any `default_config` call that
returns without raising; it is not an invariant of every reachable state
(construction with exactly one of the two paths, or a `default_config('zh')`
failing between the dictionary and corpora lookups, breaks it). -/
theorem C5_pair_invariant_conditional (envI : LocateEnv)
    (pj ps jc pm pd psc : Option String) (spp kw enc : String)
    (opts : List (String × JVal)) (jo : String) (st : SegmenterState)
    (envD : LocateEnv) (lang : String) (s : SegmenterState)
    (hpair : pd.isSome = psc.isSome)
    (hinit : init envI pj ps jc pm pd psc spp kw enc opts jo = .ok st)
    (hok : (default_config envD lang s).2 = none) :
    pair_invariant st ∧ pair_invariant (default_config envD lang s).1 := by
  constructor
  · unfold init at hinit
    rcases h1 : envI.find_jar "stanford-segmenter.jar" pj ["STANFORD_SEGMENTER"] with
      _ | jar1
    · rw [h1] at hinit; exact absurd hinit (by simp)
    · rw [h1] at hinit
      rcases h2 : envI.find_jar "slf4j-api.jar" ps ["SLF4J", "STANFORD_SEGMENTER"] with
        _ | jar2
      · rw [h2] at hinit; exact absurd hinit (by simp)
      · rw [h2] at hinit
        simp only [Except.ok.injEq] at hinit
        rw [← hinit]
        exact hpair
  · by_cases har : lang = "ar"
    · subst har
      rcases h1 : envD.find_file "arabic-segmenter-atb+bn+arztrain.ser.gz"
          (search_path_of envD) ["STANFORD_MODELS", "STANFORD_SEGMENTER"] with _ | m <;>
        simp [default_config, resolve_model, h1, pair_invariant]
    · by_cases hzh : lang = "zh"
      · subst hzh
        have h := default_config_zh_ok envD s hok
        unfold pair_invariant
        rw [h.2.1, h.2.2]
      · exfalso
        rcases hm : pyFormat "Unsupported language \x27%\x27" lang with e | m <;>
          simp [default_config, har, hzh, hm] at hok

/-- C5 witness: the amended theorem applied to a concrete construction
(both optional paths omitted) and a concrete successful
`default_config('zh')`. -/
theorem C5_pair_invariant_conditional_witness :
    pair_invariant
      { stanford_jar := "/opt/seg/stanford-segmenter.jar:/opt/seg/slf4j-api.jar"
        java_class := none, model := none, dict := none
        sihan_corpora_dict := none, sihan_post_processing := "false"
        keep_whitespaces := "false", encoding := "UTF-8"
        java_options := "-mx2g", options_cmd := "", input_file_path := none }
    ∧ pair_invariant (default_config locEnvFound "zh" baseState).1 :=
  C5_pair_invariant_conditional locEnvFound none none none none none none
    "false" "false" "UTF-8" [] "-mx2g" _ locEnvFound "zh" baseState rfl rfl rfl

/-- C6: if `default_config('zh')` returns without raising, the resulting
config has post-processing enabled and both the dictionary path and the
corpora directory populated; and the absence of either the dictionary file
or the corpora directory makes the call raise (a hard failure). -/
theorem C6_zh_requires_dict_and_corpora (env : LocateEnv) (s : SegmenterState) :
    ((default_config env "zh" s).2 = none →
      (default_config env "zh" s).1.sihan_post_processing = "true"
      ∧ (default_config env "zh" s).1.dict.isSome = true
      ∧ (default_config env "zh" s).1.sihan_corpora_dict.isSome = true)
    ∧ (env.find_file "dict-chris6.ser.gz" (search_path_of env) ["STANFORD_MODELS"] = none →
        (default_config env "zh" s).2 ≠ none)
    ∧ (env.find_dir "./data/" ["STANFORD_SEGMENTER"] = none →
        (default_config env "zh" s).2 ≠ none) := by
  refine ⟨default_config_zh_ok env s, ?_, ?_⟩
  · intro h1
    simp [default_config, h1]
  · intro h2
    rcases h1 : env.find_file "dict-chris6.ser.gz" (search_path_of env) ["STANFORD_MODELS"]
        with _ | d
    · simp [default_config, h1]
    · simp [default_config, h1, h2]

/-- C6 witness: the theorem applied to an environment where everything
resolves, one missing the dictionary, and one missing the corpora
directory. -/
theorem C6_zh_requires_dict_and_corpora_witness :
    ((default_config locEnvFound "zh" baseState).1.sihan_post_processing = "true"
      ∧ (default_config locEnvFound "zh" baseState).1.dict.isSome = true
      ∧ (default_config locEnvFound "zh" baseState).1.sihan_corpora_dict.isSome = true)
    ∧ (default_config locEnvNoDict "zh" baseState).2 ≠ none
    ∧ (default_config locEnvNoDir "zh" baseState).2 ≠ none :=
  ⟨(C6_zh_requires_dict_and_corpora locEnvFound baseState).1 rfl,
   (C6_zh_requires_dict_and_corpora locEnvNoDict baseState).2.1 rfl,
   (C6_zh_requires_dict_and_corpora locEnvNoDir baseState).2.2 rfl⟩

/-- The three Chinese-only command flags. -/
def sihan_flags : List String :=
  ["-serDictionary", "-sighanCorporaDict", "-sighanPostProcessing"]

/-- C8: with `sihanCorporaDir` unset, none of the three sihan flags occurs in
the full command built by `segment_sents` / `segment_file`; with it set, all
three are appended.  (The unset direction quantifies over configs whose
other string-valued fields are not themselves literally one of the flag
tokens — the list is flat strings, so a field that happens to equal a flag
token would be an occurrence of the same string, not an appended flag.) -/
theorem C8_sihan_flags_appended_iff (s : SegmenterState) (textFile : Option String)
    (f : String) (hf : f ∈ sihan_flags) :
    (s.sihan_corpora_dict = none →
      s.java_class ≠ some f → s.model ≠ some f → textFile ≠ some f →
      s.keep_whitespaces ≠ f → s.encoding ≠ f → s.options_cmd ≠ f →
      some f ∉ execute_cmd s (build_cmd s textFile))
    ∧ (s.sihan_corpora_dict.isSome = true →
        some f ∈ execute_cmd s (build_cmd s textFile)) := by
  have hf3 : f = "-serDictionary" ∨ f = "-sighanCorporaDict"
      ∨ f = "-sighanPostProcessing" := by simpa [sihan_flags] using hf
  constructor
  · intro hnone h1 h2 h3 h4 h5 h6
    rcases hf3 with rfl | rfl | rfl <;>
      (simp only [execute_cmd, build_cmd, hnone]
       split <;>
         simp [Ne.symm h1, Ne.symm h2, Ne.symm h3, Ne.symm h4, Ne.symm h5, Ne.symm h6])
  · intro hsome
    rcases hcorp : s.sihan_corpora_dict with _ | corp
    · rw [hcorp] at hsome; simp at hsome
    · rcases hf3 with rfl | rfl | rfl <;>
        (simp only [execute_cmd, build_cmd, hcorp]
         split <;> simp)

/-- C8 witness: the theorem applied to a plain config without corpora
directory (no flag present) and to the same config with it set (all flags
present). -/
theorem C8_sihan_flags_appended_iff_witness :
    some "-serDictionary" ∉
      execute_cmd baseState (build_cmd baseState (some "/tmp/in.txt"))
    ∧ some "-serDictionary" ∈
        execute_cmd { baseState with sihan_corpora_dict := some "/opt/seg/./data/" }
          (build_cmd { baseState with sihan_corpora_dict := some "/opt/seg/./data/" }
            (some "/tmp/in.txt")) :=
  ⟨(C8_sihan_flags_appended_iff baseState (some "/tmp/in.txt") "-serDictionary"
      (by simp [sihan_flags])).1
      rfl (by decide) (by decide) (by decide) (by decide) (by decide) (by decide),
   (C8_sihan_flags_appended_iff
      { baseState with sihan_corpora_dict := some "/opt/seg/./data/" }
      (some "/tmp/in.txt") "-serDictionary" (by simp [sihan_flags])).2 rfl⟩

/-- The serialized options string of a non-empty mapping is neither empty
nor the literal flag token `-options` (it always contains an equals sign). -/
theorem options_cmd_str_nonempty_ne (k : String) (v : JVal)
    (rest : List (String × JVal)) :
    options_cmd_str ((k, v) :: rest) ≠ ""
    ∧ options_cmd_str ((k, v) :: rest) ≠ "-options" := by
  have h := options_cmd_str_has_eq_char k v rest
  constructor
  · intro he; rw [he] at h; exact absurd h (by decide)
  · intro he; rw [he] at h; exact absurd h (by decide)

/-- C9: the options mapping is serialized as `key=jsonValue` pairs joined by
commas, in insertion order, with no trailing separator; a non-empty mapping
contributes exactly one `-options` argument carrying that string, and an
empty mapping contributes none.  For `{"a": 1, "b": "x"}` the serialized
value is exactly `a=1,b="x"`. -/
theorem C9_options_serialization (s : SegmenterState) (cmd0 : List (Option String))
    (opts : List (String × JVal))
    (hs : s.options_cmd = options_cmd_str opts)
    (hc : some "-options" ∉ cmd0) (he : s.encoding ≠ "-options") :
    options_cmd_str [("a", JVal.jnum 1), ("b", JVal.jstr "x")] = "a=1,b=\"x\""
    ∧ options_cmd_str opts =
        String.intercalate "," (opts.map (fun kv => kv.1 ++ "=" ++ jsonDumps kv.2))
    ∧ (opts ≠ [] →
        execute_cmd s cmd0 =
          cmd0 ++ [some "-inputEncoding", some s.encoding,
                   some "-options", some (options_cmd_str opts)]
        ∧ (execute_cmd s cmd0).count (some "-options") = 1)
    ∧ (opts = [] → some "-options" ∉ execute_cmd s cmd0) := by
  refine ⟨rfl, pyJoin_eq_intercalate "," _, ?_, ?_⟩
  · intro hne
    match opts, hs, hne with
    | (k, v) :: rest, hs, _ =>
      have hner := options_cmd_str_nonempty_ne k v rest
      have hsne0 : ¬ s.options_cmd = "" := by rw [hs]; exact hner.1
      have hsne : ¬ s.options_cmd = "-options" := by rw [hs]; exact hner.2
      have hcmd : execute_cmd s cmd0
          = cmd0 ++ [some "-inputEncoding", some s.encoding,
                     some "-options", some s.options_cmd] := by
        simp [execute_cmd, hsne0]
      constructor
      · rw [hcmd, hs]
      · rw [hcmd, List.count_append, List.count_eq_zero.mpr hc]
        simp [List.count_cons, he, hsne]
  · intro hnil
    subst hnil
    have hs0 : s.options_cmd = "" := hs
    simp [execute_cmd, hs0, hc, Ne.symm he]

/-- C9 witness: the theorem applied to the mapping `{"a": 1, "b": "x"}` on a
config whose serialized options string was produced from it, and (for the
empty-mapping part) discharged at the same inputs. -/
theorem C9_options_serialization_witness :
    options_cmd_str [("a", JVal.jnum 1), ("b", JVal.jstr "x")] = "a=1,b=\"x\""
    ∧ options_cmd_str [("a", JVal.jnum 1), ("b", JVal.jstr "x")] =
        String.intercalate ","
          ([("a", JVal.jnum 1), ("b", JVal.jstr "x")].map
            (fun kv => kv.1 ++ "=" ++ jsonDumps kv.2))
    ∧ ([("a", JVal.jnum 1), ("b", JVal.jstr "x")] ≠ ([] : List (String × JVal)) →
        execute_cmd { baseState with options_cmd := "a=1,b=\"x\"" } [] =
          [] ++ [some "-inputEncoding",
                 some ({ baseState with options_cmd := "a=1,b=\"x\"" } :
                    SegmenterState).encoding,
                 some "-options",
                 some (options_cmd_str [("a", JVal.jnum 1), ("b", JVal.jstr "x")])]
        ∧ (execute_cmd { baseState with options_cmd := "a=1,b=\"x\"" } []).count
            (some "-options") = 1)
    ∧ ([("a", JVal.jnum 1), ("b", JVal.jstr "x")] = ([] : List (String × JVal)) →
        some "-options" ∉ execute_cmd { baseState with options_cmd := "a=1,b=\"x\"" } []) :=
  C9_options_serialization { baseState with options_cmd := "a=1,b=\"x\"" } []
    [("a", JVal.jnum 1), ("b", JVal.jstr "x")] rfl (by simp) (by decide)

end StanfordSeg
